import Mathlib

/-!
Verification of the packaging descriptor of `tickle-me-email`.

The repository's visible source is `setup.py`, a single call to
`setuptools.setup(...)` with keyword arguments.  We embed that call as a
record of its keyword arguments.  The spec also refers to an earlier
snapshot of the same file (version `3.6.0`); that snapshot is not under
the provided source tree, so it is modelled from the spec.
-/

/-- The keyword arguments of a `setuptools.setup(...)` call, as they appear
in `setup.py`: six string-valued metadata fields plus the `scripts` tuple. -/
structure SetupCall where
  name : String
  version : String
  url : String
  author : String
  author_email : String
  description : String
  scripts : List String
deriving Repr, DecidableEq

/-- The `setup()` call of the `setup.py` present in the source tree
(version `4.3.0`), field for field. -/
def setup_4_3_0 : SetupCall :=
  { name := "tickle-me-email"
  , version := "4.3.0"
  , url := "https://chris-lamb.co.uk/projects/tickle-me-email"
  , author := "Chris Lamb"
  , author_email := "chris@chris-lamb.co.uk"
  , description := "Toolbox for implementing GTD-like behaviours in your IMAP inbox"
  , scripts := ["tickle-me-email"]
  }

/-- Modelled from the spec: the earlier snapshot of `setup.py` (version
`3.6.0`) is not present under the provided source tree.  The spec states
that in this snapshot the package name is the literal `tickle-me-email`,
the version is `3.6.0`, exactly one script named `tickle-me-email` is
declared, and the six metadata fields are present and non-empty; the
concrete values of `url`, `author`, `author_email` and `description` are
not given by the spec, so the later snapshot's values are carried over. -/
def setup_3_6_0 : SetupCall :=
  { name := "tickle-me-email"
  , version := "3.6.0"
  , url := "https://chris-lamb.co.uk/projects/tickle-me-email"
  , author := "Chris Lamb"
  , author_email := "chris@chris-lamb.co.uk"
  , description := "Toolbox for implementing GTD-like behaviours in your IMAP inbox"
  , scripts := ["tickle-me-email"]
  }

/-- The two snapshots of the packaging descriptor, in chronological order.
The first is modelled from the spec; the second is the file under the
source tree. -/
def snapshots : List SetupCall := [setup_3_6_0, setup_4_3_0]

/-- The six required metadata fields of a snapshot, in declaration order. -/
def metadataFields (s : SetupCall) : List String :=
  [s.name, s.version, s.url, s.author, s.author_email, s.description]

/-- The names of the keyword arguments passed to `setup()` in the
descriptor present in the source tree, in source order. -/
def setupKwargs : List String :=
  ["name", "version", "url", "author", "author_email", "description", "scripts"]

/-- Split a character list on the dot character. -/
def splitDots : List Char → List (List Char)
  | [] => [[]]
  | c :: cs =>
    match splitDots cs with
    | [] => if c = '.' then [[], []] else [[c]]
    | r :: rs => if c = '.' then [] :: r :: rs else (c :: r) :: rs

/-- Read a list of decimal digits as a number. -/
def digitsToNat (cs : List Char) : Nat :=
  cs.foldl (fun a c => 10 * a + (c.toNat - 48)) 0

/-- Dotted-numeric components of a version string: split on `.` and read
each component as a decimal number. -/
def versionComponents (s : String) : List Nat :=
  (splitDots s.data).map digitsToNat

/-- Strict dotted-numeric ordering on component lists: lexicographic,
with a proper prefix ordered before its extensions. -/
def componentsLt : List Nat → List Nat → Bool
  | [], [] => false
  | [], _ :: _ => true
  | _ :: _, [] => false
  | a :: as, b :: bs => a < b || (a == b && componentsLt as bs)

/-- Strict dotted-numeric ordering on version strings. -/
def versionLt (a b : String) : Bool :=
  componentsLt (versionComponents a) (versionComponents b)

/-- A character list is entirely decimal digits and non-empty. -/
def isDigits (cs : List Char) : Bool :=
  !cs.isEmpty && cs.all (fun c => c.isDigit)

/-- A version string of exactly three non-empty decimal-digit components
separated by single dots (the pattern D+.D+.D+). -/
def isDottedTriple (s : String) : Bool :=
  match splitDots s.data with
  | [a, b, c] => isDigits a && isDigits b && isDigits c
  | _ => false

/-- The files of the visible source, modelled from the spec: two
snapshots of `setup.py` and nothing else.  The spec states the visible
source "consists solely of packaging metadata (two versions of a
`setup.py` file)" with no implementation code present. -/
def visibleSourceFiles : List (String × SetupCall) :=
  [("setup.py", setup_3_6_0), ("setup.py", setup_4_3_0)]

/-- C1: in each snapshot of the packaging descriptor exactly one
installable script is declared, and its name is `tickle-me-email`;
the descriptor defines no other entry point. -/
theorem scripts_single_tickle_me_email :
    snapshots.all (fun s => s.scripts == ["tickle-me-email"]) = true := by
  decide

/-- C2: in every snapshot, the `name` field passed to `setup()` is the
literal string `tickle-me-email`. -/
theorem name_is_tickle_me_email :
    snapshots.all (fun s => s.name == "tickle-me-email") = true := by
  decide

/-- C3: in every snapshot, each of the six metadata fields `name`,
`version`, `url`, `author`, `author_email` and `description` is passed
to `setup()` with a non-empty string value. -/
theorem metadata_fields_nonempty :
    snapshots.all (fun s => (metadataFields s).all (fun v => v.length != 0)) = true := by
  decide

/-- C4: across the two snapshots the version increases monotonically:
the earlier snapshot declares `3.6.0`, the later `4.3.0`, and
`3.6.0 < 4.3.0` under dotted-numeric version ordering. -/
theorem version_increases :
    setup_3_6_0.version = "3.6.0" ∧ setup_4_3_0.version = "4.3.0" ∧
    versionLt setup_3_6_0.version setup_4_3_0.version = true := by
  refine ⟨rfl, rfl, ?_⟩
  decide

/-- C5: the set of version strings declared across the snapshots is
exactly the pair `3.6.0`, `4.3.0`. -/
theorem versions_exactly_two :
    snapshots.map SetupCall.version = ["3.6.0", "4.3.0"] := by
  decide

/-- C6: the visible source consists of exactly two snapshots of a
`setup.py` packaging file and contains no other source file. -/
theorem visible_source_two_setup_py :
    visibleSourceFiles.map Prod.fst = ["setup.py", "setup.py"] ∧
    visibleSourceFiles.length = 2 := by
  exact ⟨rfl, rfl⟩

/-- C7: in the descriptor present in the source, the single declared
script name equals the declared package name character for character. -/
theorem script_name_equals_package_name :
    setup_4_3_0.scripts = [setup_4_3_0.name] := by
  decide

/-- C8: the `version` string passed to `setup()` in the descriptor
present in the source consists of exactly three non-empty decimal-digit
components separated by single dots, concretely `4.3.0`. -/
theorem version_matches_dotted_triple :
    setup_4_3_0.version = "4.3.0" ∧ isDottedTriple setup_4_3_0.version = true := by
  exact ⟨rfl, by decide⟩

/-- C9: the only keyword arguments passed to `setup()` are `name`,
`version`, `url`, `author`, `author_email`, `description` and `scripts`;
in particular no dependency or requirement fields are declared. -/
theorem setup_kwargs_exact :
    setupKwargs = ["name", "version", "url", "author", "author_email",
      "description", "scripts"] ∧
    ("install_requires" ∈ setupKwargs ∨ "setup_requires" ∈ setupKwargs ∨
      "extras_require" ∈ setupKwargs ∨ "python_requires" ∈ setupKwargs ∨
      "packages" ∈ setupKwargs ∨ "py_modules" ∈ setupKwargs) = False := by
  refine ⟨rfl, ?_⟩
  simp [setupKwargs]
